import Mathlib

/-!
Verification development for the stereo dataloader pipeline
(src/dataloader/dataloader.py).

The Python code is shallowly embedded: rasters become a dimension list
plus a total indexing function over extended rational pixel values,
Python's global random stream becomes an explicit stream of naturals
threaded through every operation, and fallible operations (list
indexing, tensor-rank mismatches) return Except values.

The helper module image_process.py and the pfm codec are not part of
the sources; the definitions embedding them are marked
"Modelled from the spec:" and follow the natural-language
specification's description of each helper.
-/

/-- A pixel value: a finite rational, plus the IEEE special values that
the pipeline manipulates explicitly (infinities and NaN). -/
inductive PixVal where
  | fin (q : ℚ)
  | inf
  | ninf
  | nan
deriving DecidableEq

/-- A numpy array / torch tensor: a shape together with a total
indexing function (indices are multi-dimensional, row-major order as
in the source). -/
structure Arr where
  dims : List Nat
  data : List Nat → PixVal

/-- The explicit random source: a stream of naturals.  Each primitive
draw consumes one element. -/
abbrev Rng := List Nat

/-- Embedding of random.randint(lo, hi): inclusive on both ends; the
draw maps the stream head into the range, so every value of the range
is reachable and no value outside it is. -/
def pyRandInt (lo hi : Nat) : Rng → Nat × Rng
  | [] => (lo, [])
  | x :: xs => (lo + x % (hi - lo + 1), xs)

/-- Embedding of random.random(): a rational in [0, 1). -/
def pyRandUnit : Rng → ℚ × Rng
  | [] => (0, [])
  | x :: xs => (((x % 1000000 : Nat) : ℚ) / 1000000, xs)

theorem pyRandInt_ge (lo hi : Nat) (s : Rng) : lo ≤ (pyRandInt lo hi s).1 := by
  cases s with
  | nil => simp [pyRandInt]
  | cons x xs => simp [pyRandInt]

theorem pyRandInt_le (lo hi : Nat) (h : lo ≤ hi) (s : Rng) :
    (pyRandInt lo hi s).1 ≤ hi := by
  cases s with
  | nil => simpa [pyRandInt]
  | cons x xs =>
    have hpos : 0 < hi - lo + 1 := Nat.succ_pos _
    have hlt : x % (hi - lo + 1) < hi - lo + 1 := Nat.mod_lt _ hpos
    simp only [pyRandInt]
    omega

theorem pyRandUnit_nonneg (s : Rng) : 0 ≤ (pyRandUnit s).1 := by
  cases s with
  | nil => simp [pyRandUnit]
  | cons x xs =>
    simp only [pyRandUnit]
    positivity

theorem pyRandUnit_lt_one (s : Rng) : (pyRandUnit s).1 < 1 := by
  cases s with
  | nil => simp [pyRandUnit]
  | cons x xs =>
    simp only [pyRandUnit]
    rw [div_lt_one (by norm_num)]
    have : (x % 1000000 : Nat) < 1000000 := Nat.mod_lt _ (by norm_num)
    exact_mod_cast this

/-- Python str.replace on character lists: replaces every
non-overlapping occurrence, scanning left to right.  Fuel-driven
recursion bounded by the length of the subject. -/
def listReplace : Nat → List Char → List Char → List Char → List Char
  | 0, s, _, _ => s
  | _ + 1, [], _, _ => []
  | n + 1, c :: rest, pat, rep =>
    if pat ≠ [] ∧ pat.isPrefixOf (c :: rest) then
      rep ++ listReplace n ((c :: rest).drop pat.length) pat rep
    else
      c :: listReplace n rest pat rep

/-- Embedding of Python str.replace(pat, rep). -/
def strReplace (s pat rep : String) : String :=
  String.mk (listReplace s.toList.length s.toList pat.toList rep.toList)

/-- Substring containment, used for the "disp" path marker test
("disp" in filename). -/
def listContainsSub : List Char → List Char → Bool
  | _, [] => true
  | [], _ :: _ => false
  | c :: rest, p :: ps => (p :: ps).isPrefixOf (c :: rest) || listContainsSub rest (p :: ps)

/-- Embedding of Python's "pat in s" substring test. -/
def strContainsSub (s pat : String) : Bool :=
  listContainsSub s.toList pat.toList

/-- Embedding of Python str.endswith. -/
def strEndsWith (s suf : String) : Bool :=
  suf.toList.reverse.isPrefixOf s.toList.reverse

/-- Embedding of os.path.join for the simple relative paths the loader
builds. -/
def joinPath (root file : String) : String :=
  root ++ "/" ++ file

/-- Pointwise map over an array. -/
def arrMap (f : PixVal → PixVal) (a : Arr) : Arr :=
  { dims := a.dims, data := fun i => f (a.data i) }

/-- numpy floor division of a float array by a scalar (img // 50). -/
def arrFloorDiv (a : Arr) (c : ℚ) : Arr :=
  arrMap (fun p => match p with
    | PixVal.fin q => PixVal.fin ((Rat.floor (q / c) : ℤ) : ℚ)
    | p => p) a

/-- Rational clamp to [lo, hi]. -/
def ratClip (q lo hi : ℚ) : ℚ := if q < lo then lo else if hi < q then hi else q

/-- torch.clip(t - c, 0, 255), as used by the Middlebury offset
augmentation. -/
def arrSubClip (a : Arr) (c : Nat) : Arr :=
  arrMap (fun p => match p with
    | PixVal.fin q => PixVal.fin (ratClip (q - (c : ℚ)) 0 255)
    | PixVal.inf => PixVal.fin 255
    | PixVal.ninf => PixVal.fin 0
    | PixVal.nan => PixVal.nan) a

/-- tensor.unsqueeze(0). -/
def unsqueeze0 (a : Arr) : Arr :=
  { dims := 1 :: a.dims
    data := fun idx => match idx with
      | _ :: rest => a.data rest
      | [] => PixVal.nan }

/-- tensor[0] on the leading dimension. -/
def index0 (a : Arr) : Arr :=
  match a.dims with
  | _ :: rest => { dims := rest, data := fun idx => a.data (0 :: idx) }
  | [] => a

/-- tensor.permute(2, 0, 1): HWC to CHW. -/
def permuteHWC (a : Arr) : Arr :=
  match a.dims with
  | h :: w :: c :: [] =>
    { dims := [c, h, w]
      data := fun idx => match idx with
        | ch :: y :: x :: [] => a.data [y, x, ch]
        | _ => PixVal.nan }
  | _ => a

/-- torch.concat along dimension 0. -/
def concatDim0 (x y : Arr) : Arr :=
  match x.dims, y.dims with
  | c1 :: rest, _ :: _ =>
    { dims := (c1 + (y.dims.headD 0)) :: rest
      data := fun idx => match idx with
        | ch :: r => if ch < c1 then x.data (ch :: r) else y.data ((ch - c1) :: r)
        | [] => PixVal.nan }
  | _, _ => x

/-- torch.concat along dimension 1 (channel axis of a batched tensor). -/
def concatDim1 (x y : Arr) : Arr :=
  match x.dims, y.dims with
  | b :: c1 :: rest, _ :: c2 :: _ =>
    { dims := b :: (c1 + c2) :: rest
      data := fun idx => match idx with
        | i :: ch :: r => if ch < c1 then x.data (i :: ch :: r) else y.data (i :: (ch - c1) :: r)
        | _ => PixVal.nan }
  | _, _ => x

/-- tensor[:, lo:hi] channel slice of a batched tensor. -/
def chanSlice (a : Arr) (lo hi : Nat) : Arr :=
  match a.dims with
  | b :: c :: rest =>
    { dims := b :: (min hi c - lo) :: rest
      data := fun idx => match idx with
        | i :: ch :: r => a.data (i :: (ch + lo) :: r)
        | _ => PixVal.nan }
  | _ => a

/-- torch.stack(xs, dim=0). -/
def stackArr (xs : List Arr) : Arr :=
  match xs with
  | [] => { dims := [0], data := fun _ => PixVal.nan }
  | a :: _ =>
    { dims := xs.length :: a.dims
      data := fun idx => match idx with
        | i :: r => ((xs.get? i).getD a).data r
        | [] => PixVal.nan }

/-- numpy clamped 2-d window slice img[y:y+hlen, x:x+wlen]. -/
def sliceHW (a : Arr) (y x hlen wlen : Nat) : Arr :=
  match a.dims with
  | h :: w :: rest =>
    { dims := (min (y + hlen) h - min y h) :: (min (x + wlen) w - min x w) :: rest
      data := fun idx => match idx with
        | i :: j :: r => a.data ((y + i) :: (x + j) :: r)
        | _ => PixVal.nan }
  | _ => a

/-- Elementwise "value < c" on pixels, with the numpy comparison
semantics for the special values. -/
def pixLt (p : PixVal) (c : ℚ) : Bool :=
  match p with
  | PixVal.fin q => decide (q < c)
  | PixVal.inf => false
  | PixVal.ninf => true
  | PixVal.nan => false

/-- Modelled from the spec: image_process.img_pad_np is not under src/
(only its callers are).  Per the spec it is a no-op when the source
already has the canonical 540x720 spatial shape; otherwise it pads or
crops to canonical resolution, with edge-replicate fill for color or
mask rasters and constant-sentinel fill when the pad-constant flag is
set (disparity rasters). -/
def img_pad_np (a : Arr) (padConstant : Bool) : Arr :=
  match a.dims with
  | h :: w :: rest =>
    if h = 540 ∧ w = 720 then a
    else
      { dims := 540 :: 720 :: rest
        data := fun idx => match idx with
          | y :: x :: r =>
            if y < h ∧ x < w then a.data (y :: x :: r)
            else if padConstant then PixVal.fin 0
            else a.data (min y (h - 1) :: min x (w - 1) :: r)
          | _ => PixVal.nan }
  | _ => a

/-- Modelled from the spec: image_process.pseudo_nir_np is not under
src/.  The spec fixes only that it is a deterministic formula mapping
a color raster to a single-channel pseudo-NIR raster; modelled as the
channel mean. -/
def pseudo_nir_np (a : Arr) : Arr :=
  match a.dims with
  | h :: w :: _ :: [] =>
    { dims := [h, w]
      data := fun idx => match idx with
        | y :: x :: [] =>
          match a.data [y, x, 0], a.data [y, x, 1], a.data [y, x, 2] with
          | PixVal.fin b, PixVal.fin g, PixVal.fin r => PixVal.fin ((b + g + r) / 3)
          | _, _, _ => PixVal.nan
        | _ => PixVal.nan }
  | _ => a

/-- Modelled from the spec: image_process.guided_filter is not under
src/.  The spec fixes only its signature (guidance, input, window
radius, regularization epsilon) and that it is deterministic for
fixed arguments; modelled as a deterministic pointwise blend driven
by the radius. -/
def guided_filter (guide input : Arr) (radius eps : ℚ) : Arr :=
  { dims := input.dims
    data := fun idx =>
      match guide.data idx, input.data idx with
      | PixVal.fin g, PixVal.fin q => PixVal.fin ((g + radius * q) / (radius + 1 + eps))
      | _, p => p }

/-- Modelled from the spec: image_process.apply_patch_gamma_correction_torch
is not under src/.  The spec says it partitions the raster into
fixed-size patches (taken as 64x64), draws an independent random gamma
exponent per patch from a bounded range (taken as the integers 1..3),
and applies a power-law intensity transform per patch; it operates on
batched channel-first rasters and consumes the random stream. -/
def apply_patch_gamma_correction_torch (a : Arr) (rng : Rng) : Arr × Rng :=
  match a.dims with
  | b :: c :: h :: w :: [] =>
    let pw := (w + 63) / 64
    let ph := (h + 63) / 64
    ({ dims := [b, c, h, w]
       data := fun idx => match idx with
         | i :: ch :: y :: x :: [] =>
           match a.data (i :: ch :: y :: x :: []) with
           | PixVal.fin q =>
             let g := 1 + ((rng.drop ((y / 64) * pw + x / 64)).headD 0) % 3
             PixVal.fin (q ^ g / (255 : ℚ) ^ (g - 1))
           | p => p
         | _ => PixVal.nan }, rng.drop (ph * pw))
  | _ => (a, rng)

/-- Modelled from the spec: image_process.inputs_disparity_shift is
not under src/.  Per the spec, given distance d and batched stereo
pairs it crops each left raster starting d columns further right and
each right raster d columns short of the right edge, and subtracts d
from every disparity value; output width shrinks by d.  Rasters
alternate left/right by list position, as at the call site. -/
def inputs_disparity_shift (images : List Arr) (disparities : List Arr) (d : Nat) :
    List Arr × List Arr :=
  let cropW := fun (a : Arr) (fromLeft : Bool) =>
    match a.dims with
    | b :: c :: h :: w :: [] =>
      { dims := [b, c, h, w - d]
        data := fun idx => match idx with
          | i :: ch :: y :: x :: [] => a.data [i, ch, y, if fromLeft then x + d else x]
          | _ => PixVal.nan }
    | _ => a
  let shiftD := fun (a : Arr) (fromLeft : Bool) =>
    match a.dims with
    | b :: c :: h :: w :: [] =>
      { dims := [b, c, h, w - d]
        data := fun idx => match idx with
          | i :: ch :: y :: x :: [] =>
            (match a.data [i, ch, y, if fromLeft then x + d else x] with
             | PixVal.fin q => PixVal.fin (q - (d : ℚ))
             | p => p)
          | _ => PixVal.nan }
    | _ => a
  (images.enum.map (fun p => cropW p.2 (p.1 % 2 = 0)),
   disparities.enum.map (fun p => shiftD p.2 (p.1 % 2 = 0)))

/-- Modelled from the spec: image_process.crop_and_resize_height is
not under src/.  Per the spec it crops a contiguous vertical band and
resizes it back to canonical height, leaving horizontal sampling
untouched; the band offset is a fresh random draw.  Acts on a stacked
[n, c, h, w] tensor and returns the n slices. -/
def crop_and_resize_height (a : Arr) (rng : Rng) : List Arr × Rng :=
  match a.dims with
  | n :: c :: h :: w :: [] =>
    let bandH := h - h / 4
    let (off, s1) := pyRandInt 0 (h / 4) rng
    ((List.range n).map (fun i =>
      { dims := [c, h, w]
        data := fun idx => match idx with
          | ch :: y :: x :: [] => a.data [i, ch, off + y * bandH / h, x]
          | _ => PixVal.nan }), s1)
  | _ => ([a], rng)

/-- The noise-target enum of the synthetic descriptor. -/
inductive NoiseTarget where
  | rgb
  | nir
deriving DecidableEq

/-- EntityFlying3d: the synthetic sample descriptor
(dataloader.py lines 36-61). -/
structure EntityFlying3d where
  images : List String
  disparity : List String
  guided_noise : Option Int
  gamma_noise : Option ℚ
  shift_filter : Bool
  vertical_scale : Bool
  noise_target : NoiseTarget
  shift_distance : Nat
  disparity_right : Bool
  rgb_gt : Option (List String)
deriving DecidableEq

/-- EntityFlying3d.__init__: stores the arguments and draws
shift_distance = random.randint(8, 16) once at construction. -/
def EntityFlying3d.mk_init (images disparity : List String)
    (guided_noise : Option Int) (gamma_noise : Option ℚ)
    (shift_filter vertical_scale : Bool) (noise_target : NoiseTarget)
    (disparity_right : Bool) (rgb_gt : Option (List String)) (rng : Rng) :
    EntityFlying3d × Rng :=
  let (sd, s1) := pyRandInt 8 16 rng
  (⟨images, disparity, guided_noise, gamma_noise, shift_filter, vertical_scale,
    noise_target, sd, disparity_right, rgb_gt⟩, s1)

/-- The canonical cut resolution (class attribute cut_resolution). -/
def cut_resolution : Nat × Nat := (540, 720)

/-- EntityFlying3d.__read_img: decode (external codec, modelled as the
environment fs) and pad to canonical resolution unless already
canonical; the pad constant is selected by the "disp" path marker. -/
def readImg (fs : String → Arr) (filename : String) : Arr :=
  let img := fs filename
  match img.dims with
  | h :: w :: _ =>
    if h ≠ 540 ∨ w ≠ 720 then img_pad_np img (strContainsSub filename "disp") else img
  | _ => img

/-- EntityFlying3d.__to_tensor on a decoded array: a 2-d array gains a
leading unit channel; a 3-d HWC array is permuted to CHW; other ranks
fail (torch would raise). -/
def toTensorArr (img : Arr) : Except String Arr :=
  match img.dims with
  | h :: w :: [] =>
    Except.ok { dims := [1, h, w]
                data := fun idx => match idx with
                  | _ :: y :: x :: [] => img.data [y, x]
                  | _ => PixVal.nan }
  | h :: w :: c :: [] =>
    Except.ok { dims := [c, h, w]
                data := fun idx => match idx with
                  | ch :: y :: x :: [] => img.data [y, x, ch]
                  | _ => PixVal.nan }
  | _ => Except.error "tensor rank"

/-- EntityFlying3d.__to_tensor on a filename: read, pad, convert. -/
def toTensorOf (fs : String → Arr) (filename : String) : Except String Arr :=
  toTensorArr (readImg fs filename)

/-- Fallible list indexing (Python IndexError). -/
def lidxA (l : List Arr) (i : Nat) : Except String Arr :=
  match l.get? i with
  | some a => Except.ok a
  | none => Except.error "IndexError"

/-- Fallible list indexing for path lists (Python IndexError). -/
def lidxS (l : List String) (i : Nat) : Except String String :=
  match l.get? i with
  | some a => Except.ok a
  | none => Except.error "IndexError"

/-- Sequencing of a fallible stage with the random stream threaded
through it. -/
def bindS {α β : Type} (x : Except String α × Rng)
    (f : α → Rng → Except String β × Rng) : Except String β × Rng :=
  match x with
  | (Except.error e, s) => (Except.error e, s)
  | (Except.ok a, s) => f a s

/-- The row-major decomposition of linear pixel indices used by both
sparse samplers: u = i mod W, v = i div W
(dataloader.py lines 135-137 and 343-345). -/
def sampleUV (W : Nat) (indices : List Nat) : List (Nat × Nat) :=
  indices.map (fun i => (i % W, i / W))

/-- The guided-noise block of get_item (lines 92-116). -/
def guidedStage (e : EntityFlying3d) (images0 : List Arr) (rng : Rng) :
    Except String (List Arr) × Rng :=
  match e.guided_noise with
  | none => (Except.ok images0, rng)
  | some gn =>
    match e.noise_target with
    | NoiseTarget.rgb =>
      bindS (lidxA images0 2, rng) (fun i2 s =>
      bindS (lidxA images0 0, s) (fun i0 s =>
      bindS (lidxA images0 3, s) (fun i3 s =>
      bindS (lidxA images0 1, s) (fun i1 s =>
        let a0 := guided_filter i2 i0 ((gn : ℚ) * 5 + 2) (1 / 1000000)
        let a1 := guided_filter i3 i1 ((gn : ℚ) * 5 + 2) (1 / 1000000)
        let (r, s1) := pyRandInt 1 4 s
        if r = 1 then
          (Except.ok ((images0.set 0 (arrFloorDiv a0 50)).set 1 (arrFloorDiv a1 50)), s1)
        else
          (Except.ok ((images0.set 0 a0).set 1 a1), s1)))))
    | NoiseTarget.nir =>
      bindS (lidxA images0 0, rng) (fun i0 s =>
      bindS (lidxA images0 2, s) (fun i2 s =>
      bindS (lidxA images0 1, s) (fun i1 s =>
      bindS (lidxA images0 3, s) (fun i3 s =>
        let a2 := guided_filter (pseudo_nir_np i0) i2 ((gn : ℚ) + 3) (1 / 1000000)
        let a3 := guided_filter (pseudo_nir_np i1) i3 ((gn : ℚ) + 3) (1 / 1000000)
        (Except.ok ((images0.set 2 a2).set 3 a3), s)))))

/-- The gamma-noise block of get_item (lines 118-133). -/
def gammaStage (e : EntityFlying3d) (images2 : List Arr) (rng : Rng) :
    Except String (List Arr) × Rng :=
  match e.gamma_noise with
  | none => (Except.ok images2, rng)
  | some _ =>
    match e.noise_target with
    | NoiseTarget.rgb =>
      bindS (lidxA images2 0, rng) (fun i0 s =>
      bindS (lidxA images2 1, s) (fun i1 s =>
        let (g0, s1) := apply_patch_gamma_correction_torch (unsqueeze0 i0) s
        let (g1, s2) := apply_patch_gamma_correction_torch (unsqueeze0 i1) s1
        (Except.ok ((images2.set 0 (index0 g0)).set 1 (index0 g1)), s2)))
    | NoiseTarget.nir =>
      bindS (lidxA images2 2, rng) (fun i2 s =>
      bindS (lidxA images2 3, s) (fun i3 s =>
        let (g2, s1) := apply_patch_gamma_correction_torch (unsqueeze0 i2) s
        let (g3, s2) := apply_patch_gamma_correction_torch (unsqueeze0 i3) s1
        (Except.ok ((images2.set 2 (index0 g2)).set 3 (index0 g3)), s2)))

/-- The ground-truth color block of get_item (lines 142-144). -/
def rgbGtStage (fs : String → Arr) (e : EntityFlying3d) (images3 : List Arr) :
    Except String (List Arr) :=
  match e.rgb_gt with
  | none => Except.ok images3
  | some gt => (gt.mapM (toTensorOf fs)).map (fun gts => images3 ++ gts)

/-- The shift-filter block of get_item (lines 145-163). -/
def shiftStage (e : EntityFlying3d) (imagesG : List Arr)
    (disparity disparity_right : Arr) : Except String (List Arr × Arr × Arr) :=
  if e.shift_filter then
    let imgsU := imagesG.map unsqueeze0
    (match e.rgb_gt with
     | none => Except.ok imgsU
     | some _ => do
        let i0 ← lidxA imgsU 0
        let i4 ← lidxA imgsU 4
        let i1 ← lidxA imgsU 1
        let i5 ← lidxA imgsU 5
        Except.ok (((imgsU.set 0 (concatDim1 i0 i4)).set 1 (concatDim1 i1 i5)).take 4)
    ).bind (fun imgsU2 =>
      let r := inputs_disparity_shift imgsU2
        [unsqueeze0 disparity, unsqueeze0 disparity_right] e.shift_distance
      match r.2 with
      | dl :: dr :: [] =>
        (match e.rgb_gt with
         | none => Except.ok (r.1.map index0, index0 dl, index0 dr)
         | some _ => do
            let j0 ← lidxA r.1 0
            let j1 ← lidxA r.1 1
            let imgs2 := r.1 ++ [chanSlice j0 3 6, chanSlice j1 3 6]
            let imgs3 := (imgs2.set 0 (chanSlice j0 0 3)).set 1 (chanSlice j1 0 3)
            Except.ok (imgs3.map index0, index0 dl, index0 dr))
      | _ => Except.error "unpack")
  else Except.ok (imagesG, disparity, disparity_right)

/-- The vertical-scale block of get_item (lines 164-178). -/
def verticalStage (e : EntityFlying3d) (imagesS : List Arr)
    (dispL dispR : Arr) (rng : Rng) :
    Except String (List Arr × Arr × Arr) × Rng :=
  if e.vertical_scale then
    let (r1, s1) := crop_and_resize_height (stackArr (imagesS.take 2)) rng
    match r1 with
    | a0 :: a1 :: [] =>
      let (r2, s2) := crop_and_resize_height (stackArr ((imagesS.drop 2).take 2)) s1
      match r2 with
      | a2 :: a3 :: [] =>
        let imgs4 := (((imagesS.set 0 a0).set 1 a1).set 2 a2).set 3 a3
        let (imgs5, s3) :=
          match e.rgb_gt with
          | none => (Except.ok imgs4, s2)
          | some _ =>
            let (r3, s3a) := crop_and_resize_height (stackArr ((imgs4.drop 4).take 2)) s2
            match r3 with
            | a4 :: a5 :: [] => (Except.ok ((imgs4.set 4 a4).set 5 a5), s3a)
            | _ => (Except.error "unpack", s3a)
        bindS (imgs5, s3) (fun imgs s =>
          let (rD, s4) := crop_and_resize_height (unsqueeze0 dispL) s
          match rD with
          | d0 :: _ =>
            if e.disparity_right then
              let (rDr, s5) := crop_and_resize_height (unsqueeze0 dispR) s4
              match rDr with
              | dr0 :: _ => (Except.ok (imgs, d0, dr0), s5)
              | [] => (Except.error "IndexError", s5)
            else (Except.ok (imgs, d0, dispR), s4)
          | [] => (Except.error "IndexError", s4))
      | _ => (Except.error "unpack", s2)
    | _ => (Except.error "unpack", s1)
  else (Except.ok (imagesS, dispL, dispR), rng)

/-- The sparse-point tensor of get_item (lines 135-137 and 179-180):
u,v from the first 5000 entries of the permutation over the canonical
frame, stacked with the gathered left-disparity values. -/
def pointsArr (perm : List Nat) (dispF : Arr) : Arr :=
  { dims := [(perm.take 5000).length, 3]
    data := fun idx => match idx with
      | k :: j :: [] =>
        match (sampleUV cut_resolution.2 (perm.take 5000)).get? k with
        | some p =>
          if j = 0 then PixVal.fin p.1
          else if j = 1 then PixVal.fin p.2
          else dispF.data [0, p.2, p.1]
        | none => PixVal.nan
      | _ => PixVal.nan }

/-- EntityFlying3d.get_item (dataloader.py lines 87-189).  Returns the
produced batch together with the descriptor as it stands after the
call (the method performs no attribute assignment, which the theorems
make explicit), threading the random stream. -/
def EntityFlying3d.get_item (e : EntityFlying3d) (fs : String → Arr)
    (perm : List Nat) (rng : Rng) :
    Except String (List Arr × EntityFlying3d) × Rng :=
  let images0 := e.images.map (readImg fs)
  bindS (guidedStage e images0 rng) (fun images1 s =>
  bindS (images1.mapM toTensorArr, s) (fun images2 s =>
  bindS (gammaStage e images2 s) (fun images3 s =>
  bindS (lidxS e.disparity 0, s) (fun d0 s =>
  bindS (toTensorOf fs d0, s) (fun disparity s =>
  bindS (lidxS e.disparity 1, s) (fun d1 s =>
  bindS (toTensorOf fs d1, s) (fun disparity_right s =>
  bindS (rgbGtStage fs e images3, s) (fun imagesG s =>
  bindS (shiftStage e imagesG disparity disparity_right, s) (fun sres s =>
  bindS (verticalStage e sres.1 sres.2.1 sres.2.2 s) (fun vres s =>
  let imagesF := vres.1
  let dispF := vres.2.1
  let dispRF := vres.2.2
  let points := pointsArr perm dispF
  let dispOut := if e.disparity_right then concatDim0 dispF dispRF else dispF
  (Except.ok (imagesF ++ [points, dispOut], e), s)))))))))))

/-- EntityMiddlebury: the Middlebury sample descriptor
(dataloader.py lines 205-209). -/
structure EntityMiddlebury where
  disparity : String
  left : String
  right : String
deriving DecidableEq

/-- Disparity sanitization of the Middlebury loader: both infinities
and NaN become the finite sentinel 100000 (lines 226-227). -/
def sanitizeDisp (a : Arr) : Arr :=
  arrMap (fun p => match p with
    | PixVal.inf => PixVal.fin 100000
    | PixVal.ninf => PixVal.fin 100000
    | PixVal.nan => PixVal.fin 100000
    | q => q) a

/-- The mutually exclusive augmentation block of
EntityMiddlebury.get_item (dataloader.py lines 231-240): one draw
nsmt = randint(1, 100) selects the branch; the 21..70 branch draws a
separate offset for each color image. -/
def middleburyAugment (rng : Rng) (left_rgb right_rgb left_nir right_nir : Arr) :
    (Arr × Arr × Arr × Arr) × Rng :=
  let (nsmt, s1) := pyRandInt 1 100 rng
  if 70 < nsmt then
    let (g0, s2) := apply_patch_gamma_correction_torch (unsqueeze0 left_rgb) s1
    let (g1, s3) := apply_patch_gamma_correction_torch (unsqueeze0 right_rgb) s2
    ((index0 g0, index0 g1, left_nir, right_nir), s3)
  else if 20 < nsmt then
    let (o1, s2) := pyRandInt 64 224 s1
    let (o2, s3) := pyRandInt 64 224 s2
    ((arrSubClip left_rgb o1, arrSubClip right_rgb o2, left_nir, right_nir), s3)
  else
    let (g0, s2) := apply_patch_gamma_correction_torch (unsqueeze0 left_nir) s1
    let (g1, s3) := apply_patch_gamma_correction_torch (unsqueeze0 right_nir) s2
    ((left_rgb, right_rgb, index0 g0, index0 g1), s3)

/-- EntityMiddlebury.get_item (dataloader.py lines 211-250): a fresh
random 540x720 crop, pseudo-NIR derivation, padding, disparity
sanitization, the single-draw augmentation, and the 8-tuple result
(the last two outputs are the same disparity tensor). -/
def EntityMiddlebury.get_item (e : EntityMiddlebury) (fs : String → Arr) (rng : Rng) :
    (Arr × Arr × Arr × Arr × Arr × Arr × Arr × Arr) × Rng :=
  let (x, s1) := pyRandInt 0 800 rng
  let (y, s2) := pyRandInt 0 200 s1
  let left := sliceHW (fs e.left) y x 540 720
  let right := sliceHW (fs e.right) y x 540 720
  let left_nir := pseudo_nir_np left
  let right_nir := pseudo_nir_np right
  let left_rgb := permuteHWC (img_pad_np left false)
  let right_rgb := permuteHWC (img_pad_np right false)
  let left_nirT := unsqueeze0 (img_pad_np left_nir false)
  let right_nirT := unsqueeze0 (img_pad_np right_nir false)
  let left_rgb_original := left_rgb
  let right_rgb_original := right_rgb
  let disparity_left :=
    unsqueeze0 (img_pad_np (sanitizeDisp (sliceHW (fs e.disparity) y x 540 720)) true)
  let ((lr, rr, ln, rn), s3) := middleburyAugment s2 left_rgb right_rgb left_nirT right_nirT
  ((lr, rr, ln, rn, left_rgb_original, right_rgb_original, disparity_left, disparity_left), s3)

/-- The descriptor the Middlebury constructor builds for a matching
disparity file: the disparity path and the im0/im1 png siblings
derived by the two substring substitutions (lines 262-273). -/
def mbDesc (root file : String) : EntityMiddlebury :=
  ⟨joinPath root file,
   joinPath root (strReplace (strReplace file "disp0" "im0") "pfm" "png"),
   joinPath root (strReplace (strReplace file "disp0" "im1") "pfm" "png")⟩

/-- MiddleburyDataset.__init__ (dataloader.py lines 256-274): walk the
folder (the walk result is the explicit input), and for every file
ending in disp0.pfm append 100 descriptors. -/
def middleburyInit (walk : List (String × List String)) : List EntityMiddlebury :=
  walk.foldl (fun acc rf =>
    rf.2.foldl (fun acc2 file =>
      if strEndsWith file "disp0.pfm" then
        (List.range 100).foldl (fun acc3 _ => acc3 ++ [mbDesc rf.1 file]) acc2
      else acc2) acc) []

/-- Ethe3dEntity.get_item (dataloader.py lines 311-354): load the pair
and its pseudo-NIR, clamp the sampling frame to min(H,540) x
min(W,720), pad all six rasters, set disparity to infinity where the
occlusion mask is below 200, sample up to 5000 points from the given
permutation and gather the masked disparity at them unfiltered. -/
def eth3dGetItem (fs : String → Arr) (path : String) (perm : List Nat) : List Arr :=
  let img_left := fs (joinPath path "im0.png")
  let img_right := fs (joinPath path "im1.png")
  let img_left_nir := pseudo_nir_np img_left
  let img_right_nir := pseudo_nir_np img_right
  let _H := min (img_left.dims.headD 0) 540
  let W := min (img_left.dims.getD 1 0) 720
  let occ_mask := fs (joinPath path "mask0nocc.png")
  let disparity := fs (joinPath path "disp0GT.pfm")
  let pL := img_pad_np img_left false
  let pR := img_pad_np img_right false
  let pLN := img_pad_np img_left_nir false
  let pRN := img_pad_np img_right_nir false
  let pD := img_pad_np disparity false
  let pM := img_pad_np occ_mask false
  let maskedD : Arr :=
    { dims := pD.dims
      data := fun idx => if pixLt (pM.data idx) 200 then PixVal.inf else pD.data idx }
  let indices := perm.take 5000
  let uv := sampleUV W indices
  let points : Arr :=
    { dims := [indices.length, 3]
      data := fun idx => match idx with
        | k :: j :: [] =>
          match uv.get? k with
          | some p =>
            if j = 0 then PixVal.fin p.1
            else if j = 1 then PixVal.fin p.2
            else maskedD.data [p.2, p.1]
          | none => PixVal.nan
        | _ => PixVal.nan }
  [permuteHWC pL, permuteHWC pR, unsqueeze0 pLN, unsqueeze0 pRN, points, unsqueeze0 maskedD]

/-- The nir field of a manifest record: either present in the JSON (a
JSON list) or absent; after derivation the loader stores a Python
tuple back into the record, and the validation path distinguishes the
two (isinstance checks see lists and tuples differently). -/
inductive NirField where
  | absent
  | fromJson (l r : String)
  | derivedTuple (l r : String)
deriving DecidableEq

/-- A manifest record (the JSON objects of flyingthings3d.json):
color pair, disparity path list, optional nir pair, optional
frame_burnt_filtered marker key. -/
structure ManifestEntry where
  rgb : String × String
  disparity : List String
  nir : NirField
  burnt_filtered : Bool
deriving DecidableEq

/-- The filesystem environment of the manifest loader: path existence
and pfm decodability (pfmread.readPFM succeeding). -/
structure FileSys where
  pathExists : String → Bool
  pfmOk : String → Bool

/-- StereoDatasetArgs (dataloader.py lines 277-308). -/
structure StereoDatasetArgs where
  flow3d_driving_json : Bool
  flying3d_json : Bool
  fast_test : Bool
  synth_no_filter : Bool
  synth_no_rgb : Bool
  validate_json : Bool
  noised_input : Bool
  shift_filter : Bool
  vertical_scale : Bool
  rgb_rendered : Bool
  disparity_right : Bool
  rgb_gt : Bool
  use_rendered_nir : Bool
deriving DecidableEq

/-- Lines 407-414: take the nir pair from the record or derive it from
the color pair by substring substitution, storing the derived tuple
back into the record. -/
def resolveNir (entry : ManifestEntry) : (String × String) × ManifestEntry :=
  match entry.nir with
  | NirField.fromJson l r => ((l, r), entry)
  | NirField.derivedTuple l r => ((l, r), entry)
  | NirField.absent =>
    let l := strReplace entry.rgb.1 "frames_cleanpass" "nir_rendered"
    let r := strReplace entry.rgb.2 "frames_cleanpass" "nir_rendered"
    ((l, r), { entry with nir := NirField.derivedTuple l r })

/-- Line 415: the ambient-NIR path pair. -/
def nirAmbientOf (nir : String × String) : String × String :=
  (strReplace nir.1 "nir_rendered" "nir_ambient",
   strReplace nir.2 "nir_rendered" "nir_ambient")

/-- The indexed alternate-exposure rendering path (lines 431-435):
substitute the render marker and append the index suffix. -/
def renderPath (base marker : String) (i : Nat) : String :=
  strReplace (strReplace base "frames_cleanpass" marker) ".png" ("_" ++ toString i ++ ".png")

/-- The 9-to-0 existence probe of the rendered-variant expansion
(lines 429-439 and 441-451): the highest index whose left and right
renderings both exist, or -1. -/
def probeIdx (env : FileSys) (base marker : String) : Int :=
  match (List.range 10).findSome? (fun ir =>
    let i := 9 - ir
    let l := renderPath base marker i
    let r := strReplace l "left" "right"
    if env.pathExists l && env.pathExists r then some (i : Int) else none) with
  | some i => i
  | none => -1

/-- Python range(n) for a possibly negative bound. -/
def intRange (n : Int) : List Nat :=
  if n ≤ 0 then [] else List.range n.toNat

/-- The optional guided-noise draw of the rendered-variant expansion
(randint(3, 8) when noised_input is set). -/
def noisedDraw (args : StereoDatasetArgs) (rng : Rng) : Option Int × Rng :=
  if args.noised_input then
    let (g, s) := pyRandInt 3 8 rng
    ((some (g : Int)), s)
  else (none, rng)

/-- One rendered-variant descriptor with independent NIR renderings
(lines 459-484). -/
def renderedOneNir (args : StereoDatasetArgs) (rgbPair : String × String)
    (render render_nir : String) (disparity : List String)
    (acc : List EntityFlying3d × Rng) : List EntityFlying3d × Rng :=
  let (g, s1) := noisedDraw args acc.2
  let (d, s2) := EntityFlying3d.mk_init
    [render, strReplace render "left" "right", render_nir, strReplace render_nir "left" "right"]
    disparity g none args.shift_filter args.vertical_scale NoiseTarget.rgb
    args.disparity_right (if args.rgb_gt then some [rgbPair.1, rgbPair.2] else none) s1
  (acc.1 ++ [d], s2)

/-- One rendered-variant descriptor reusing the base NIR pair
(lines 485-505). -/
def renderedOneBase (args : StereoDatasetArgs) (rgbPair : String × String)
    (render : String) (nir : String × String) (disparity : List String)
    (acc : List EntityFlying3d × Rng) : List EntityFlying3d × Rng :=
  let (g, s1) := noisedDraw args acc.2
  let (d, s2) := EntityFlying3d.mk_init
    [render, strReplace render "left" "right", nir.1, nir.2]
    disparity g none args.shift_filter args.vertical_scale NoiseTarget.rgb
    args.disparity_right (if args.rgb_gt then some [rgbPair.1, rgbPair.2] else none) s1
  (acc.1 ++ [d], s2)

/-- The rendered-variant block of the expansion (lines 426-505). -/
def renderedDescs (args : StereoDatasetArgs) (env : FileSys)
    (rgbPair : String × String) (nir : String × String) (disparity : List String)
    (rng : Rng) : List EntityFlying3d × Rng :=
  if args.rgb_rendered then
    let ir_gb := probeIdx env rgbPair.1 "frame_shaded"
    let ir_nir := if args.use_rendered_nir then probeIdx env rgbPair.1 "frame_shaded_nir" else -1
    (intRange ir_gb).foldl (fun acc ir =>
      let render := renderPath rgbPair.1 "frame_shaded" ir
      if args.use_rendered_nir then
        (intRange ir_nir).foldl (fun acc2 inr =>
          renderedOneNir args rgbPair render (renderPath rgbPair.1 "frame_shaded_nir" inr)
            disparity acc2) acc
      else
        renderedOneBase args rgbPair render nir disparity acc) ([], rng)
  else ([], rng)

/-- One noised-duplicate descriptor (lines 510-522): a fresh
random.random() guided-noise level folded into [0,20) and a fresh
random.random()*2 gamma-noise factor, target left at its default. -/
def noisedOne (args : StereoDatasetArgs) (rgbPair nirAmb : String × String)
    (disparity : List String) (acc : List EntityFlying3d × Rng) :
    List EntityFlying3d × Rng :=
  let (r1, s1) := pyRandUnit acc.2
  let a := r1 * 100
  let guided : Int := Int.floor (a - 20 * ((Int.floor (a / 20) : ℤ) : ℚ))
  let (r2, s2) := pyRandUnit s1
  let gamma : ℚ := r2 * 2
  let (d, s3) := EntityFlying3d.mk_init
    [rgbPair.1, rgbPair.2, nirAmb.1, nirAmb.2] disparity
    (some guided) (some gamma) args.shift_filter args.vertical_scale
    NoiseTarget.rgb args.disparity_right
    (if args.rgb_gt then some [rgbPair.1, rgbPair.2] else none) s2
  (acc.1 ++ [d], s3)

/-- The noised-duplicate block of the expansion (lines 507-522): five
outer iterations, each iterating over the two target labels whose
parameter is commented out at the call site. -/
def noisedDescs (args : StereoDatasetArgs) (rgbPair nirAmb : String × String)
    (disparity : List String) (rng : Rng) : List EntityFlying3d × Rng :=
  if args.noised_input then
    (List.range 5).foldl (fun acc _ =>
      (["rgb", "nir"]).foldl (fun acc2 _t =>
        noisedOne args rgbPair nirAmb disparity acc2) acc) ([], rng)
  else ([], rng)

/-- The validation predicate applied to a (mutated) record
(lines 523-538): string-valued fields and tuple-valued fields are
existence-checked (JSON lists are neither, so only a derived nir
tuple is checked), and the first disparity path must decode. -/
def validateEntry (env : FileSys) (entry : ManifestEntry) : Bool :=
  (match entry.nir with
   | NirField.derivedTuple l r => env.pathExists l && env.pathExists r
   | _ => true) &&
  (match entry.disparity.get? 0 with
   | some d => env.pfmOk d
   | none => false)

/-- The loop state of flow3d_driving_json: accumulated descriptors,
surviving validation records, the (never incremented) error counter,
and the random stream. -/
structure Flow3dState where
  entries : List EntityFlying3d
  validate_entries : List ManifestEntry
  error_cnt : Nat
  rng : Rng
deriving DecidableEq

/-- The per-record body of StereoDataset.flow3d_driving_json
(dataloader.py lines 407-540): resolve the nir pair, emit the base,
rendered-variant and noised-duplicate descriptors, and run the
validation check, updating the loop state. -/
def flow3dStep (args : StereoDatasetArgs) (env : FileSys) (validate : Bool)
    (entry : ManifestEntry) (st : Flow3dState) : Flow3dState :=
  let nr := resolveNir entry
  let nir := nr.1
  let entry1 := nr.2
  let nirAmb := nirAmbientOf nir
  let basePair :=
    if args.synth_no_rgb then ([], st.rng)
    else
      let (d, s) := EntityFlying3d.mk_init
        [entry1.rgb.1, entry1.rgb.2, nirAmb.1, nirAmb.2] entry1.disparity
        none none args.shift_filter false NoiseTarget.rgb args.disparity_right
        (if args.rgb_gt then some [entry1.rgb.1, entry1.rgb.2] else none) st.rng
      ([d], s)
  let rendPair := renderedDescs args env entry1.rgb nir entry1.disparity basePair.2
  let noisedPair := noisedDescs args entry1.rgb nirAmb entry1.disparity rendPair.2
  let valEntries :=
    if validate && validateEntry env entry1 then st.validate_entries ++ [entry1]
    else st.validate_entries
  { entries := st.entries ++ basePair.1 ++ rendPair.1 ++ noisedPair.1
    validate_entries := valEntries
    error_cnt := st.error_cnt
    rng := noisedPair.2 }

/-- The record loop of StereoDataset.flow3d_driving_json
(dataloader.py lines 396-541): skip filtered records, stop early when
(fast_test and over 100000 samples) or (over 20000 samples and index
over 1500), otherwise run the per-record body. -/
def flow3dLoop (args : StereoDatasetArgs) (env : FileSys) (validate : Bool) :
    List ManifestEntry → Nat → Flow3dState → Flow3dState
  | [], _, st => st
  | entry :: rest, idx, st =>
    if args.synth_no_filter && entry.burnt_filtered then
      flow3dLoop args env validate rest (idx + 1) st
    else if (args.fast_test && decide (st.entries.length > 100000))
        || (decide (st.entries.length > 20000) && decide (idx > 1500)) then
      st
    else
      flow3dLoop args env validate rest (idx + 1) (flow3dStep args env validate entry st)

/-- The observable outcome of one flow3d_driving_json call: the value
it returns (the descriptor list), what it writes back over the
manifest file (lines 542-545), and the error count it prints. -/
structure Flow3dResult where
  returned : List EntityFlying3d
  written : Option (List ManifestEntry)
  error_cnt : Nat
deriving DecidableEq

/-- StereoDataset.flow3d_driving_json (dataloader.py lines 390-546),
with the parsed manifest and the filesystem as explicit inputs. -/
def flow3d_driving_json (args : StereoDatasetArgs) (env : FileSys)
    (entries : List ManifestEntry) (validate : Bool) (rng : Rng) :
    Flow3dResult × Rng :=
  let st := flow3dLoop args env validate entries 0 ⟨[], [], 0, rng⟩
  ({ returned := st.entries
     written := if validate then some st.validate_entries else none
     error_cnt := st.error_cnt }, st.rng)

theorem uvInjective (W : Nat) :
    Function.Injective (fun i : Nat => (i % W, i / W)) := by
  intro a b hab
  have h1 : a % W = b % W := congrArg Prod.fst hab
  have h2 : a / W = b / W := congrArg Prod.snd hab
  have ha := Nat.div_add_mod a W
  have hb := Nat.div_add_mod b W
  rw [← ha, ← hb, h1, h2]

theorem sampleUV_props (H W : Nat) (hW : 0 < W) (indices : List Nat)
    (hnd : indices.Nodup) (hb : ∀ i ∈ indices, i < H * W) :
    (sampleUV W indices).Nodup ∧ ∀ p ∈ sampleUV W indices, p.1 < W ∧ p.2 < H := by
  constructor
  · exact hnd.map (uvInjective W)
  · intro p hp
    simp only [sampleUV, List.mem_map] at hp
    obtain ⟨i, hi, rfl⟩ := hp
    refine ⟨Nat.mod_lt _ hW, ?_⟩
    have him : i < H * W := hb i hi
    exact Nat.div_lt_of_lt_mul (by rwa [Nat.mul_comm] at him)

/-- Claim C8: in both the synthetic and ETH3D samplers, the up-to-5000
sampled (u,v) coordinate pairs, obtained by decomposing distinct
indices of a permutation (take 5000 of a duplicate-free index list
bounded by the pixel count) in row-major order via sampleUV, are
pairwise distinct and within frame bounds: u < W and v < H. -/
theorem c8_sample_uv_distinct_bounded (H W : Nat) (perm : List Nat) (hW : 0 < W)
    (hnd : perm.Nodup) (hb : ∀ i ∈ perm, i < H * W) :
    (sampleUV W (perm.take 5000)).Nodup ∧
    ∀ p ∈ sampleUV W (perm.take 5000), p.1 < W ∧ p.2 < H :=
  sampleUV_props H W hW (perm.take 5000) ((List.take_sublist 5000 perm).nodup hnd)
    (fun i hi => hb i (List.mem_of_mem_take hi))

theorem c8_sample_uv_distinct_bounded_witness :
    ((0 : Nat) < 2 ∧ ([0, 1, 2] : List Nat).Nodup ∧
      (∀ i ∈ ([0, 1, 2] : List Nat), i < 2 * 2)) ∧
    ((sampleUV 2 (([0, 1, 2] : List Nat).take 5000)).Nodup ∧
     ∀ p ∈ sampleUV 2 (([0, 1, 2] : List Nat).take 5000), p.1 < 2 ∧ p.2 < 2) :=
  ⟨⟨by decide, by decide, by decide⟩,
   c8_sample_uv_distinct_bounded 2 2 [0, 1, 2] (by decide) (by decide) (by decide)⟩

theorem bindS_ok_inv {α β : Type} {x : Except String α × Rng}
    {f : α → Rng → Except String β × Rng} {b : β} {s1 : Rng}
    (h : bindS x f = (Except.ok b, s1)) :
    ∃ a s0, x = (Except.ok a, s0) ∧ f a s0 = (Except.ok b, s1) := by
  obtain ⟨xe, xs⟩ := x
  cases xe with
  | error e => simp [bindS] at h
  | ok a => exact ⟨a, xs, rfl, h⟩

theorem get_item_self_unchanged (e : EntityFlying3d) (fs : String → Arr)
    (perm : List Nat) (s : Rng) (batch : List Arr) (e1 : EntityFlying3d) (s1 : Rng)
    (h : e.get_item fs perm s = (Except.ok (batch, e1), s1)) : e1 = e := by
  unfold EntityFlying3d.get_item at h
  obtain ⟨a1, t1, _, h⟩ := bindS_ok_inv h
  obtain ⟨a2, t2, _, h⟩ := bindS_ok_inv h
  obtain ⟨a3, t3, _, h⟩ := bindS_ok_inv h
  obtain ⟨a4, t4, _, h⟩ := bindS_ok_inv h
  obtain ⟨a5, t5, _, h⟩ := bindS_ok_inv h
  obtain ⟨a6, t6, _, h⟩ := bindS_ok_inv h
  obtain ⟨a7, t7, _, h⟩ := bindS_ok_inv h
  obtain ⟨a8, t8, _, h⟩ := bindS_ok_inv h
  obtain ⟨a9, t9, _, h⟩ := bindS_ok_inv h
  obtain ⟨a10, t10, _, h⟩ := bindS_ok_inv h
  simp only [Prod.mk.injEq, Except.ok.injEq] at h
  exact h.1.2.symm

/-- Claim C9: for every synthetic descriptor, shift_distance is an
integer in [8,16] drawn once at construction, and get_item never
changes the descriptor: whenever a call succeeds, the descriptor
after the call is the constructed one, so every subsequent call uses
the same shift_distance. -/
theorem c9_shift_distance_fixed (images disparity : List String) (gn : Option Int)
    (ga : Option ℚ) (sf vs : Bool) (nt : NoiseTarget) (dr : Bool)
    (gt : Option (List String)) (rng : Rng) :
    (8 ≤ (EntityFlying3d.mk_init images disparity gn ga sf vs nt dr gt rng).1.shift_distance ∧
     (EntityFlying3d.mk_init images disparity gn ga sf vs nt dr gt rng).1.shift_distance ≤ 16) ∧
    (∀ (fs : String → Arr) (perm : List Nat) (s : Rng) (batch : List Arr)
        (e1 : EntityFlying3d) (s1 : Rng),
      (EntityFlying3d.mk_init images disparity gn ga sf vs nt dr gt rng).1.get_item fs perm s
        = (Except.ok (batch, e1), s1) →
      e1 = (EntityFlying3d.mk_init images disparity gn ga sf vs nt dr gt rng).1) := by
  constructor
  · constructor
    · exact pyRandInt_ge 8 16 rng
    · exact pyRandInt_le 8 16 (by norm_num) rng
  · intro fs perm s batch e1 s1 h
    exact get_item_self_unchanged _ fs perm s batch e1 s1 h

/-- The environment of the C9 witness run. -/
def c9fs : String → Arr := fun _ => ⟨[540, 720], fun _ => PixVal.fin 0⟩

/-- The concrete descriptor of the C9 witness run. -/
def c9e : EntityFlying3d :=
  (EntityFlying3d.mk_init [] ["D", "E"] none none false false NoiseTarget.rgb
    false none []).1

/-- Total extraction of a successful get_item outcome, for spelling
out the witness run's components. -/
def exOk (x : Except String (List Arr × EntityFlying3d)) : List Arr × EntityFlying3d :=
  match x with
  | Except.ok v => v
  | Except.error _ => ([], ⟨[], [], none, none, false, false, NoiseTarget.rgb, 0, false, none⟩)

theorem c9_shift_distance_fixed_witness :
    (8 ≤ c9e.shift_distance ∧ c9e.shift_distance ≤ 16) ∧
    (exOk (c9e.get_item c9fs [] []).1).2 = c9e :=
  ⟨(c9_shift_distance_fixed [] ["D", "E"] none none false false NoiseTarget.rgb
      false none []).1,
   (c9_shift_distance_fixed [] ["D", "E"] none none false false NoiseTarget.rgb
      false none []).2 c9fs [] [] (exOk (c9e.get_item c9fs [] []).1).1
      (exOk (c9e.get_item c9fs [] []).1).2 (c9e.get_item c9fs [] []).2 (by rfl)⟩

theorem foldl_append_replicate {α : Type} (d : α) :
    ∀ (l : List Nat) (acc : List α),
      l.foldl (fun a _ => a ++ [d]) acc = acc ++ List.replicate l.length d := by
  intro l
  induction l with
  | nil => intro acc; simp
  | cons x xs ih =>
    intro acc
    rw [List.foldl_cons, ih, List.append_assoc]
    rfl

theorem mb_inner (root : String) :
    ∀ (files : List String) (acc : List EntityMiddlebury),
      files.foldl (fun acc2 file =>
        if strEndsWith file "disp0.pfm" then
          (List.range 100).foldl (fun acc3 _ => acc3 ++ [mbDesc root file]) acc2
        else acc2) acc
      = acc ++ files.flatMap (fun f =>
          if strEndsWith f "disp0.pfm" then List.replicate 100 (mbDesc root f) else []) := by
  intro files
  induction files with
  | nil => intro acc; simp
  | cons f fs ih =>
    intro acc
    rw [List.foldl_cons, List.flatMap_cons]
    by_cases hc : strEndsWith f "disp0.pfm"
    · simp only [hc, if_true, ih]
      rw [foldl_append_replicate, List.length_range, List.append_assoc]
    · simp only [hc, Bool.false_eq_true, if_false, ih, List.nil_append]

theorem mb_outer :
    ∀ (walk : List (String × List String)) (acc : List EntityMiddlebury),
      walk.foldl (fun acc rf =>
        rf.2.foldl (fun acc2 file =>
          if strEndsWith file "disp0.pfm" then
            (List.range 100).foldl (fun acc3 _ => acc3 ++ [mbDesc rf.1 file]) acc2
          else acc2) acc) acc
      = acc ++ walk.flatMap (fun rf => rf.2.flatMap (fun f =>
          if strEndsWith f "disp0.pfm" then List.replicate 100 (mbDesc rf.1 f) else [])) := by
  intro walk
  induction walk with
  | nil => intro acc; simp
  | cons rf rest ih =>
    intro acc
    rw [List.foldl_cons, List.flatMap_cons, mb_inner, ih, List.append_assoc]

/-- Claim C10: for every disparity file ending in disp0.pfm found by
the folder walk, the Middlebury constructor appends exactly 100
descriptors (a replicate-100 block), all referencing that same
disparity path and the sibling im0/im1 png color paths derived by the
fixed substring substitutions (mbDesc); files not ending in disp0.pfm
contribute nothing. -/
theorem c10_middlebury_hundred (walk : List (String × List String)) :
    middleburyInit walk
      = walk.flatMap (fun rf => rf.2.flatMap (fun f =>
          if strEndsWith f "disp0.pfm" then List.replicate 100 (mbDesc rf.1 f) else [])) := by
  unfold middleburyInit
  rw [mb_outer]
  simp

/-- The guided/gamma noise bounds of one noised-duplicate descriptor. -/
def noisedBounds (d : EntityFlying3d) : Prop :=
  ∃ g γ, d.guided_noise = some g ∧ d.gamma_noise = some γ ∧
    0 ≤ g ∧ g < 20 ∧ 0 ≤ γ ∧ γ < 2

theorem noisedOne_length (args : StereoDatasetArgs) (p q : String × String)
    (disp : List String) (acc : List EntityFlying3d × Rng) :
    ((noisedOne args p q disp acc).1).length = acc.1.length + 1 := by
  simp [noisedOne, EntityFlying3d.mk_init]

theorem noisedOne_mem (args : StereoDatasetArgs) (p q : String × String)
    (disp : List String) (acc : List EntityFlying3d × Rng) (d : EntityFlying3d)
    (h : d ∈ (noisedOne args p q disp acc).1) :
    d ∈ acc.1 ∨ noisedBounds d := by
  simp only [noisedOne, EntityFlying3d.mk_init, List.mem_append, List.mem_singleton] at h
  rcases h with h | h
  · exact Or.inl h
  · right
    subst h
    set r1 : ℚ := (pyRandUnit acc.2).1 with hr1
    set a : ℚ := r1 * 100 with ha
    refine ⟨Int.floor (a - 20 * ((Int.floor (a / 20) : ℤ) : ℚ)),
      (pyRandUnit (pyRandUnit acc.2).2).1 * 2, rfl, rfl, ?_, ?_, ?_, ?_⟩
    · have h0 : (0 : ℚ) ≤ a - 20 * ((Int.floor (a / 20) : ℤ) : ℚ) := by
        have hf : ((Int.floor (a / 20) : ℤ) : ℚ) ≤ a / 20 := Int.floor_le _
        nlinarith
      exact Int.floor_nonneg.mpr h0
    · have h1 : a - 20 * ((Int.floor (a / 20) : ℤ) : ℚ) < 20 := by
        have hf : a / 20 - 1 < ((Int.floor (a / 20) : ℤ) : ℚ) := Int.sub_one_lt_floor _
        nlinarith
      have := Int.floor_lt.mpr (by exact_mod_cast h1)
      exact_mod_cast this
    · have := pyRandUnit_nonneg (pyRandUnit acc.2).2
      positivity
    · have := pyRandUnit_lt_one (pyRandUnit acc.2).2
      nlinarith

theorem noisedFold_length (args : StereoDatasetArgs) (p q : String × String)
    (disp : List String) :
    ∀ (l : List Nat) (acc : List EntityFlying3d × Rng),
      ((l.foldl (fun a _ =>
          (["rgb", "nir"]).foldl (fun a2 _t => noisedOne args p q disp a2) a) acc).1).length
        = acc.1.length + 2 * l.length := by
  intro l
  induction l with
  | nil => intro acc; simp
  | cons x xs ih =>
    intro acc
    rw [List.foldl_cons, ih]
    show ((noisedOne args p q disp (noisedOne args p q disp acc)).1).length + 2 * xs.length
      = acc.1.length + 2 * (x :: xs).length
    rw [noisedOne_length, noisedOne_length, List.length_cons]
    ring

theorem noisedFold_mem (args : StereoDatasetArgs) (p q : String × String)
    (disp : List String) :
    ∀ (l : List Nat) (acc : List EntityFlying3d × Rng) (d : EntityFlying3d),
      d ∈ (l.foldl (fun a _ =>
          (["rgb", "nir"]).foldl (fun a2 _t => noisedOne args p q disp a2) a) acc).1 →
      d ∈ acc.1 ∨ noisedBounds d := by
  intro l
  induction l with
  | nil => intro acc d h; exact Or.inl h
  | cons x xs ih =>
    intro acc d h
    rw [List.foldl_cons] at h
    rcases ih _ d h with h2 | h2
    · show d ∈ acc.1 ∨ noisedBounds d
      have h3 : d ∈ (noisedOne args p q disp (noisedOne args p q disp acc)).1 := h2
      rcases noisedOne_mem _ _ _ _ _ _ h3 with h4 | h4
      · rcases noisedOne_mem _ _ _ _ _ _ h4 with h5 | h5
        · exact Or.inl h5
        · exact Or.inr h5
      · exact Or.inr h4
    · exact Or.inr h2

/-- Claim C2 (amended): when noised-duplicate mode is set, the
expansion emits exactly 10 extra descriptors per retained record (five
outer iterations times the two target labels of the inner loop, the
target parameter being commented out at the call site), each drawing
an independent guided-noise level in [0,20) and an independent
gamma-noise factor in [0,2). -/
theorem c2_noised_block (args : StereoDatasetArgs) (rgbPair nirAmb : String × String)
    (disparity : List String) (rng : Rng) (hn : args.noised_input = true) :
    (noisedDescs args rgbPair nirAmb disparity rng).1.length = 10 ∧
    ∀ d ∈ (noisedDescs args rgbPair nirAmb disparity rng).1, noisedBounds d := by
  unfold noisedDescs
  rw [hn, if_pos rfl]
  constructor
  · rw [noisedFold_length]
    rfl
  · intro d h
    rcases noisedFold_mem args rgbPair nirAmb disparity _ _ d h with h2 | h2
    · simp at h2
    · exact h2

/-- The concrete argument set of the C2 run: only noised-duplicate
mode is on (use_rendered_nir keeps its Python default). -/
def c2args : StereoDatasetArgs :=
  { flow3d_driving_json := false, flying3d_json := false, fast_test := false
    synth_no_filter := false, synth_no_rgb := false, validate_json := false
    noised_input := true, shift_filter := false, vertical_scale := false
    rgb_rendered := false, disparity_right := false, rgb_gt := false
    use_rendered_nir := true }

/-- Claim C2 counterexample: at a concrete retained record the
noised-duplicate block emits 10 extra descriptors, not the claimed 5. -/
theorem c2_counterexample :
    ¬ ((noisedDescs c2args ("L", "R") ("NL", "NR") ["D"] []).1.length = 5) := by
  have h : (noisedDescs c2args ("L", "R") ("NL", "NR") ["D"] []).1.length = 10 := by
    unfold noisedDescs
    rw [if_pos (show c2args.noised_input = true from rfl), noisedFold_length]
    rfl
  omega

theorem c2_noised_block_witness :
    c2args.noised_input = true ∧
    ((noisedDescs c2args ("L", "R") ("NL", "NR") ["D"] []).1.length = 10 ∧
     ∀ d ∈ (noisedDescs c2args ("L", "R") ("NL", "NR") ["D"] []).1, noisedBounds d) :=
  ⟨rfl, c2_noised_block c2args ("L", "R") ("NL", "NR") ["D"] [] rfl⟩

/-- The all-default argument set (every expansion flag off,
use_rendered_nir at its Python default). -/
def plainArgs : StereoDatasetArgs :=
  { flow3d_driving_json := false, flying3d_json := false, fast_test := false
    synth_no_filter := false, synth_no_rgb := false, validate_json := false
    noised_input := false, shift_filter := false, vertical_scale := false
    rgb_rendered := false, disparity_right := false, rgb_gt := false
    use_rendered_nir := true }

/-- A minimal manifest record. -/
def plainEntry : ManifestEntry := ⟨("L", "R"), ["D"], NirField.absent, false⟩

/-- An environment where every path exists and every pfm decodes. -/
def allOkEnv : FileSys := ⟨fun _ => true, fun _ => true⟩

/-- Reference loop following the words of the spec for non-fast-test
runs: every record is processed, no early stop.  The implemented loop
is compared against it. -/
def flow3dLoopAll (args : StereoDatasetArgs) (env : FileSys) (validate : Bool) :
    List ManifestEntry → Nat → Flow3dState → Flow3dState
  | [], _, st => st
  | entry :: rest, idx, st =>
    if args.synth_no_filter && entry.burnt_filtered then
      flow3dLoopAll args env validate rest (idx + 1) st
    else
      flow3dLoopAll args env validate rest (idx + 1) (flow3dStep args env validate entry st)

theorem flow3dLoop_no_break (args : StereoDatasetArgs) (env : FileSys) (v : Bool)
    (hft : args.fast_test = false) :
    ∀ (rest : List ManifestEntry) (idx : Nat) (st : Flow3dState),
      idx + rest.length ≤ 1501 →
      flow3dLoop args env v rest idx st = flow3dLoopAll args env v rest idx st := by
  intro rest
  induction rest with
  | nil => intro idx st _; rfl
  | cons entry rest ih =>
    intro idx st hlen
    rw [flow3dLoop, flow3dLoopAll]
    have hidx : ¬ (idx > 1500) := by
      simp only [List.length_cons] at hlen
      omega
    have hc : ((args.fast_test && decide (st.entries.length > 100000))
        || (decide (st.entries.length > 20000) && decide (idx > 1500))) = false := by
      simp [hft, hidx]
    split
    · exact ih (idx + 1) st (by simp only [List.length_cons] at hlen; omega)
    · rw [if_neg (by simp [hc])]
      exact ih (idx + 1) _ (by simp only [List.length_cons] at hlen; omega)

/-- Claim C5 (amended): the stop test is (fast-test and over 100000
accumulated samples) or -- independently of the fast-test flag --
(over 20000 accumulated samples and record index over 1500).  With
fast-test unset the loop therefore behaves like the no-stop reference
loop on any manifest of at most 1501 records, but not in general (see
the counterexample). -/
theorem c5_break_condition (args : StereoDatasetArgs) (env : FileSys) (v : Bool)
    (hft : args.fast_test = false) (rest : List ManifestEntry) (idx : Nat)
    (st : Flow3dState) (hlen : idx + rest.length ≤ 1501) :
    flow3dLoop args env v rest idx st = flow3dLoopAll args env v rest idx st :=
  flow3dLoop_no_break args env v hft rest idx st hlen

theorem c5_break_condition_witness :
    (plainArgs.fast_test = false ∧ 0 + [plainEntry].length ≤ 1501) ∧
    flow3dLoop plainArgs allOkEnv false [plainEntry] 0 ⟨[], [], 0, []⟩
      = flow3dLoopAll plainArgs allOkEnv false [plainEntry] 0 ⟨[], [], 0, []⟩ :=
  ⟨⟨rfl, by simp⟩,
   c5_break_condition plainArgs allOkEnv false rfl [plainEntry] 0 ⟨[], [], 0, []⟩ (by simp)⟩

/-- The descriptor the base expansion emits for plainEntry under
plainArgs with an exhausted random stream. -/
def c5desc : EntityFlying3d :=
  ⟨["L", "R", "L", "R"], ["D"], none, none, false, false, NoiseTarget.rgb, 8, false, none⟩

theorem c5step (es : List EntityFlying3d) (ves : List ManifestEntry) (ec : Nat) :
    flow3dStep plainArgs allOkEnv false plainEntry ⟨es, ves, ec, []⟩
      = ⟨es ++ [c5desc], ves, ec, []⟩ := by
  show Flow3dState.mk (es ++ [c5desc] ++ [] ++ []) ves ec [] = _
  rw [List.append_nil, List.append_nil]

theorem c5loopLemma : ∀ (n k : Nat),
    flow3dLoop plainArgs allOkEnv false (List.replicate n plainEntry) k
      ⟨List.replicate k c5desc, [], 0, []⟩
    = ⟨List.replicate (if 20001 ≤ k then k else min (k + n) 20001) c5desc, [], 0, []⟩ := by
  intro n
  induction n with
  | zero =>
    intro k
    have h : (if 20001 ≤ k then k else min (k + 0) 20001) = k := by
      split <;> omega
    rw [h]
    rfl
  | succ n ih =>
    intro k
    rw [List.replicate_succ, flow3dLoop,
      if_neg (show ¬ ((plainArgs.synth_no_filter && plainEntry.burnt_filtered) = true)
        by decide)]
    by_cases hk : 20001 ≤ k
    · rw [if_pos (by
        simp only [show plainArgs.fast_test = false from rfl, Bool.false_and,
          Bool.false_or, Bool.and_eq_true, decide_eq_true_eq, List.length_replicate]
        omega)]
      rw [if_pos hk]
    · rw [if_neg (by
        simp only [show plainArgs.fast_test = false from rfl, Bool.false_and,
          Bool.false_or, Bool.and_eq_true, decide_eq_true_eq, List.length_replicate]
        omega)]
      rw [c5step, ← List.replicate_succ', ih (k + 1)]
      have h : (if 20001 ≤ k + 1 then k + 1 else min (k + 1 + n) 20001)
          = (if 20001 ≤ k then k else min (k + (n + 1)) 20001) := by
        rw [if_neg hk]
        split <;> omega
      rw [h]

theorem flow3d_returned (args : StereoDatasetArgs) (env : FileSys)
    (entries : List ManifestEntry) (v : Bool) (rng : Rng) :
    (flow3d_driving_json args env entries v rng).1.returned
      = (flow3dLoop args env v entries 0 ⟨[], [], 0, rng⟩).entries := rfl

/-- Claim C5 counterexample: with the fast-test flag unset and an
all-off argument set (each processed record appends exactly one
descriptor), a 20002-record manifest produces only 20001 descriptors:
the loop stopped early at index 20001, so the last record was never
processed. -/
theorem c5_counterexample :
    plainArgs.fast_test = false ∧
    (List.replicate 20002 plainEntry).length = 20002 ∧
    (flow3d_driving_json plainArgs allOkEnv
      (List.replicate 20002 plainEntry) false []).1.returned.length = 20001 := by
  refine ⟨rfl, by rw [List.length_replicate], ?_⟩
  rw [flow3d_returned,
    show (⟨[], [], 0, []⟩ : Flow3dState) = ⟨List.replicate 0 c5desc, [], 0, []⟩ from rfl,
    c5loopLemma 20002 0]
  show (List.replicate (if 20001 ≤ 0 then 0 else min (0 + 20002) 20001) c5desc).length = 20001
  rw [List.length_replicate, if_neg (by omega)]
  omega

theorem flow3dStep_validate (args : StereoDatasetArgs) (env : FileSys)
    (entry : ManifestEntry) (st : Flow3dState) :
    (flow3dStep args env true entry st).validate_entries
      = if validateEntry env (resolveNir entry).2 then
          st.validate_entries ++ [(resolveNir entry).2]
        else st.validate_entries := by
  simp [flow3dStep]

theorem flow3dLoopAll_validate (args : StereoDatasetArgs) (env : FileSys)
    (hnf : args.synth_no_filter = false) :
    ∀ (rest : List ManifestEntry) (idx : Nat) (st : Flow3dState),
      (flow3dLoopAll args env true rest idx st).validate_entries
        = st.validate_entries
          ++ (rest.map (fun e => (resolveNir e).2)).filter (validateEntry env) := by
  intro rest
  induction rest with
  | nil => intro idx st; simp [flow3dLoopAll]
  | cons entry rest ih =>
    intro idx st
    rw [flow3dLoopAll, if_neg (by simp [hnf]), ih, flow3dStep_validate,
      List.map_cons, List.filter_cons]
    by_cases hv : validateEntry env (resolveNir entry).2
    · rw [if_pos hv, if_pos hv, List.append_assoc, List.singleton_append]
    · rw [if_neg hv, if_neg hv]

theorem flow3d_written (args : StereoDatasetArgs) (env : FileSys)
    (entries : List ManifestEntry) (rng : Rng) :
    (flow3d_driving_json args env entries true rng).1.written
      = some ((flow3dLoop args env true entries 0 ⟨[], [], 0, rng⟩).validate_entries) := rfl

/-- Claim C3 (amended): validation mode DOES persist: it writes the
compacted manifest (exactly the surviving, mutated records, in order)
back over the manifest file itself, while the function's return value
is the expanded descriptor list, not the manifest. -/
theorem c3_validation_writeback (args : StereoDatasetArgs) (env : FileSys)
    (entries : List ManifestEntry) (rng : Rng)
    (hft : args.fast_test = false) (hnf : args.synth_no_filter = false)
    (hlen : entries.length ≤ 1501) :
    (flow3d_driving_json args env entries true rng).1.written
      = some ((entries.map (fun e => (resolveNir e).2)).filter (validateEntry env)) := by
  rw [flow3d_written,
    flow3dLoop_no_break args env true hft entries 0 _ (by omega),
    flow3dLoopAll_validate args env hnf,
    show (⟨[], [], 0, rng⟩ : Flow3dState).validate_entries = [] from rfl,
    List.nil_append]

theorem c3_validation_writeback_witness :
    (plainArgs.fast_test = false ∧ plainArgs.synth_no_filter = false ∧
      ([plainEntry] : List ManifestEntry).length ≤ 1501) ∧
    (flow3d_driving_json plainArgs allOkEnv [plainEntry] true []).1.written
      = some ((([plainEntry] : List ManifestEntry).map
          (fun e => (resolveNir e).2)).filter (validateEntry allOkEnv)) :=
  ⟨⟨rfl, rfl, by norm_num⟩,
   c3_validation_writeback plainArgs allOkEnv [plainEntry] [] rfl rfl (by norm_num)⟩

/-- Claim C3 counterexample: a concrete validation run does write to
the manifest file (the written component of the outcome is not none),
so the manifest file on disk is replaced, not left unchanged. -/
theorem c3_counterexample :
    (flow3d_driving_json plainArgs allOkEnv [plainEntry] true []).1.written ≠ none := by
  decide

/-- The environment of the C4 failing input: every path exists, but
the disparity file of the second record fails to decode. -/
def c4env : FileSys := ⟨fun _ => true, fun p => p != "D2"⟩

/-- The fully existing record of the C4 failing input. -/
def c4good : ManifestEntry := ⟨("L1", "R1"), ["D1"], NirField.absent, false⟩

/-- The record of the C4 failing input whose disparity file is
undecodable. -/
def c4bad : ManifestEntry := ⟨("L2", "R2"), ["D2"], NirField.absent, false⟩

/-- Claim C4 (code divergence): the validation error counter is never
incremented anywhere in the loop, and on the failing input (one fully
existing record plus one record whose disparity decode fails) the
second record is dropped from the compacted manifest while the
reported error count is 0, not the claimed >= 1. -/
theorem c4_error_counter_dead :
    (∀ (args : StereoDatasetArgs) (env : FileSys) (v : Bool)
        (rest : List ManifestEntry) (idx : Nat) (st : Flow3dState),
      (flow3dLoop args env v rest idx st).error_cnt = st.error_cnt) ∧
    (flow3d_driving_json plainArgs c4env [c4good, c4bad] true []).1.written
      = some [(resolveNir c4good).2] ∧
    (flow3d_driving_json plainArgs c4env [c4good, c4bad] true []).1.error_cnt = 0 := by
  refine ⟨?_, by decide, by decide⟩
  intro args env v rest
  induction rest with
  | nil => intro idx st; rfl
  | cons entry rest ih =>
    intro idx st
    simp only [flow3dLoop]
    split
    · exact ih _ _
    · split
      · rfl
      · rw [ih]
        rfl

/-- The empty raster, used as a dummy argument in concrete runs. -/
def arrNil : Arr := ⟨[], fun _ => PixVal.nan⟩

/-- Claim C6 (amended): on every Middlebury access exactly one of
three mutually exclusive augmentations is applied, selected by the
single draw n = randint(1,100) (so 1 <= n <= 100): n > 70
patch-gamma-corrects both color images and leaves the NIR pair
untouched; 21 <= n <= 70 subtracts an INDEPENDENTLY drawn offset in
[64,224] from EACH color image, clamped to [0,255], leaving NIR
untouched; n <= 20 patch-gamma-corrects both derived-NIR images and
leaves the colors untouched. -/
theorem c6_augment_branches (rng : Rng) (lr rr ln rn : Arr) :
    (1 ≤ (pyRandInt 1 100 rng).1 ∧ (pyRandInt 1 100 rng).1 ≤ 100) ∧
    (70 < (pyRandInt 1 100 rng).1 →
      ∃ g0 g1, middleburyAugment rng lr rr ln rn
          = ((index0 g0.1, index0 g1.1, ln, rn), g1.2) ∧
        g0 = apply_patch_gamma_correction_torch (unsqueeze0 lr) (pyRandInt 1 100 rng).2 ∧
        g1 = apply_patch_gamma_correction_torch (unsqueeze0 rr) g0.2) ∧
    (20 < (pyRandInt 1 100 rng).1 ∧ (pyRandInt 1 100 rng).1 ≤ 70 →
      ∃ o1 o2 s3, 64 ≤ o1 ∧ o1 ≤ 224 ∧ 64 ≤ o2 ∧ o2 ≤ 224 ∧
        middleburyAugment rng lr rr ln rn
          = ((arrSubClip lr o1, arrSubClip rr o2, ln, rn), s3)) ∧
    ((pyRandInt 1 100 rng).1 ≤ 20 →
      ∃ g0 g1, middleburyAugment rng lr rr ln rn
          = ((lr, rr, index0 g0.1, index0 g1.1), g1.2) ∧
        g0 = apply_patch_gamma_correction_torch (unsqueeze0 ln) (pyRandInt 1 100 rng).2 ∧
        g1 = apply_patch_gamma_correction_torch (unsqueeze0 rn) g0.2) := by
  rcases hp : pyRandInt 1 100 rng with ⟨nsmt, s1⟩
  dsimp only
  refine ⟨?_, ?_, ?_, ?_⟩
  · have hg := pyRandInt_ge 1 100 rng
    have hl := pyRandInt_le 1 100 (by norm_num) rng
    rw [hp] at hg hl
    exact ⟨hg, hl⟩
  · intro hgt
    rcases hg0 : apply_patch_gamma_correction_torch (unsqueeze0 lr) s1 with ⟨g0v, s2⟩
    rcases hg1 : apply_patch_gamma_correction_torch (unsqueeze0 rr) s2 with ⟨g1v, s3⟩
    refine ⟨(g0v, s2), (g1v, s3), ?_, rfl, hg1.symm⟩
    simp only [middleburyAugment, hp]
    rw [if_pos hgt]
    simp only [hg0, hg1]
  · intro hmid
    rcases ho1 : pyRandInt 64 224 s1 with ⟨o1v, s2⟩
    rcases ho2 : pyRandInt 64 224 s2 with ⟨o2v, s3⟩
    have b1 := pyRandInt_ge 64 224 s1
    have b2 := pyRandInt_le 64 224 (by norm_num) s1
    have b3 := pyRandInt_ge 64 224 s2
    have b4 := pyRandInt_le 64 224 (by norm_num) s2
    rw [ho1] at b1 b2
    rw [ho2] at b3 b4
    refine ⟨o1v, o2v, s3, b1, b2, b3, b4, ?_⟩
    simp only [middleburyAugment, hp]
    rw [if_neg (by omega), if_pos hmid.1]
    simp only [ho1, ho2]
  · intro hle
    rcases hg0 : apply_patch_gamma_correction_torch (unsqueeze0 ln) s1 with ⟨g0v, s2⟩
    rcases hg1 : apply_patch_gamma_correction_torch (unsqueeze0 rn) s2 with ⟨g1v, s3⟩
    refine ⟨(g0v, s2), (g1v, s3), ?_, rfl, hg1.symm⟩
    simp only [middleburyAugment, hp]
    rw [if_neg (by omega), if_neg (by omega)]
    simp only [hg0, hg1]

theorem c6_augment_branches_witness :
    (20 < (pyRandInt 1 100 [29]).1 ∧ (pyRandInt 1 100 [29]).1 ≤ 70) ∧
    ∃ o1 o2 s3, 64 ≤ o1 ∧ o1 ≤ 224 ∧ 64 ≤ o2 ∧ o2 ≤ 224 ∧
      middleburyAugment [29] arrNil arrNil arrNil arrNil
        = ((arrSubClip arrNil o1, arrSubClip arrNil o2, arrNil, arrNil), s3) :=
  ⟨⟨by decide, by decide⟩,
   (c6_augment_branches [29] arrNil arrNil arrNil arrNil).2.2.1 ⟨by decide, by decide⟩⟩

/-- The filesystem of the C6 counterexample run: pfm paths decode to a
740x1520 float map, the color paths to 740x1520x3 rasters whose
pixels all hold 200. -/
def c6fs : String → Arr := fun p =>
  if strEndsWith p ".pfm" then ⟨[740, 1520], fun _ => PixVal.fin 1⟩
  else ⟨[740, 1520, 3], fun _ => PixVal.fin 200⟩

/-- The descriptor of the C6 counterexample run. -/
def c6e : EntityMiddlebury := ⟨"d.pfm", "l.png", "r.png"⟩

/-- Claim C6 counterexample: a concrete access that takes the offset
branch (draw 30) subtracts DIFFERENT offsets from the two color images
(64 from the left, 224 from the right): starting from equal 200-valued
pixels, the outputs differ (136 vs 0), so no single offset subtracted
from both images, clamped to [0,255], describes the result. -/
theorem c6_counterexample :
    ¬ ∃ c : ℚ,
      (EntityMiddlebury.get_item c6e c6fs [0, 0, 29, 0, 160]).1.1.data [0, 0, 0]
        = PixVal.fin (ratClip (200 - c) 0 255) ∧
      (EntityMiddlebury.get_item c6e c6fs [0, 0, 29, 0, 160]).1.2.1.data [0, 0, 0]
        = PixVal.fin (ratClip (200 - c) 0 255) := by
  rintro ⟨c, h1, h2⟩
  have hfsL : c6fs "l.png" = (⟨[740, 1520, 3], fun _ => PixVal.fin 200⟩ : Arr) := by
    unfold c6fs
    rw [show strEndsWith "l.png" ".pfm" = false from by decide]
    rfl
  have hfsR : c6fs "r.png" = (⟨[740, 1520, 3], fun _ => PixVal.fin 200⟩ : Arr) := by
    unfold c6fs
    rw [show strEndsWith "r.png" ".pfm" = false from by decide]
    rfl
  have e1 : (EntityMiddlebury.get_item c6e c6fs [0, 0, 29, 0, 160]).1.1.data [0, 0, 0]
      = PixVal.fin 136 := by
    simp only [EntityMiddlebury.get_item, c6e, hfsL, hfsR, pyRandInt, middleburyAugment]
    norm_num [sliceHW, img_pad_np, permuteHWC, arrSubClip, arrMap, ratClip]
  have e2 : (EntityMiddlebury.get_item c6e c6fs [0, 0, 29, 0, 160]).1.2.1.data [0, 0, 0]
      = PixVal.fin 0 := by
    simp only [EntityMiddlebury.get_item, c6e, hfsL, hfsR, pyRandInt, middleburyAugment]
    norm_num [sliceHW, img_pad_np, permuteHWC, arrSubClip, arrMap, ratClip]
  rw [e1] at h1
  rw [e2] at h2
  have h4 : (PixVal.fin 136 : PixVal) = PixVal.fin 0 := h1.trans h2.symm
  simp at h4

/-- Claim C7: on every ETH3D access (i) every dense-disparity pixel
whose padded occlusion-mask value is below 200 is set to infinity
(pixelwise characterization of the returned dense map, which is the
masked map sampled from); (ii) the up-to-5000 sampled (u,v)
coordinates are pairwise distinct and bounded by min(W,720) and
min(H,540); (iii) the gathered sparse points are emitted without
filtering: the k-th point's disparity entry is exactly the masked
disparity at its coordinates, infinite values included. -/
theorem c7_eth3d_masking_sampling (fs : String → Arr) (path : String)
    (perm : List Nat) (h0 w0 : Nat)
    (hdims : (fs (joinPath path "im0.png")).dims = [h0, w0, 3])
    (hw : 0 < w0) (hnd : perm.Nodup)
    (hb : ∀ i ∈ perm, i < min h0 540 * min w0 720) :
    (∀ y x : Nat,
      ((eth3dGetItem fs path perm).getD 5 arrNil).data [0, y, x]
        = if pixLt ((img_pad_np (fs (joinPath path "mask0nocc.png")) false).data [y, x]) 200
          then PixVal.inf
          else (img_pad_np (fs (joinPath path "disp0GT.pfm")) false).data [y, x]) ∧
    ((sampleUV (min w0 720) (perm.take 5000)).Nodup ∧
      ∀ p ∈ sampleUV (min w0 720) (perm.take 5000),
        p.1 < min w0 720 ∧ p.2 < min h0 540) ∧
    (((eth3dGetItem fs path perm).getD 4 arrNil).dims = [(perm.take 5000).length, 3] ∧
      ∀ (k : Nat) (p : Nat × Nat),
        (sampleUV (min w0 720) (perm.take 5000)).get? k = some p →
        ((eth3dGetItem fs path perm).getD 4 arrNil).data [k, 2]
          = if pixLt ((img_pad_np (fs (joinPath path "mask0nocc.png")) false).data
                [p.2, p.1]) 200
            then PixVal.inf
            else (img_pad_np (fs (joinPath path "disp0GT.pfm")) false).data [p.2, p.1]) := by
  refine ⟨fun y x => rfl,
    sampleUV_props (min h0 540) (min w0 720) (by omega) (perm.take 5000)
      ((List.take_sublist 5000 perm).nodup hnd)
      (fun i hi => hb i (List.mem_of_mem_take hi)),
    rfl, ?_⟩
  intro k p hk
  simp only [eth3dGetItem, hdims, List.getD_cons_succ, List.getD_cons_zero]
  rw [hk]
  rfl

/-- The filesystem of the C7 witness run: color pngs decode to
600x800x3 rasters, the occlusion mask and disparity map to 600x800. -/
def c7fs : String → Arr := fun p =>
  if strEndsWith p ".png" && !(strEndsWith p "nocc.png") then
    ⟨[600, 800, 3], fun _ => PixVal.fin 50⟩
  else ⟨[600, 800], fun _ => PixVal.fin 10⟩

theorem c7_eth3d_masking_sampling_witness :
    ((c7fs (joinPath "scene" "im0.png")).dims = [600, 800, 3] ∧ (0 : Nat) < 800 ∧
      ([0, 1, 2] : List Nat).Nodup ∧
      (∀ i ∈ ([0, 1, 2] : List Nat), i < min 600 540 * min 800 720)) ∧
    ((sampleUV (min 800 720) (([0, 1, 2] : List Nat).take 5000)).Nodup ∧
      ∀ p ∈ sampleUV (min 800 720) (([0, 1, 2] : List Nat).take 5000),
        p.1 < min 800 720 ∧ p.2 < min 600 540) :=
  ⟨⟨by decide, by decide, by decide, by decide⟩,
   (c7_eth3d_masking_sampling c7fs "scene" [0, 1, 2] 600 800 (by decide) (by decide)
      (by decide) (by decide)).2.1⟩

theorem bindS_ok {α β : Type} (a : α) (s : Rng)
    (f : α → Rng → Except String β × Rng) : bindS (Except.ok a, s) f = f a s := rfl

theorem bindS_pure {α β : Type} (a : α) (s : Rng)
    (f : α → Rng → Except String β × Rng) :
    bindS ((pure a : Except String α), s) f = f a s := rfl

theorem guidedStage_none (e : EntityFlying3d) (h : e.guided_noise = none)
    (imgs : List Arr) (s : Rng) : guidedStage e imgs s = (Except.ok imgs, s) := by
  unfold guidedStage
  rw [h]

theorem gammaStage_none (e : EntityFlying3d) (h : e.gamma_noise = none)
    (imgs : List Arr) (s : Rng) : gammaStage e imgs s = (Except.ok imgs, s) := by
  unfold gammaStage
  rw [h]

theorem rgbGtStage_none (fs : String → Arr) (e : EntityFlying3d)
    (h : e.rgb_gt = none) (imgs : List Arr) : rgbGtStage fs e imgs = Except.ok imgs := by
  unfold rgbGtStage
  rw [h]

theorem shiftStage_false (e : EntityFlying3d) (h : e.shift_filter = false)
    (imgs : List Arr) (dL dR : Arr) :
    shiftStage e imgs dL dR = Except.ok (imgs, dL, dR) := by
  unfold shiftStage
  rw [h]
  rfl

theorem verticalStage_false (e : EntityFlying3d) (h : e.vertical_scale = false)
    (imgs : List Arr) (dL dR : Arr) (s : Rng) :
    verticalStage e imgs dL dR s = (Except.ok (imgs, dL, dR), s) := by
  unfold verticalStage
  rw [h]
  rfl

theorem readImg_dims (fs : String → Arr) (p : String) (h0 w0 : Nat) (ds : List Nat)
    (h : (fs p).dims = h0 :: w0 :: ds) :
    (readImg fs p).dims = 540 :: 720 :: ds := by
  unfold readImg
  simp only [h]
  by_cases hc : h0 ≠ 540 ∨ w0 ≠ 720
  · rw [if_pos hc]
    unfold img_pad_np
    simp only [h]
    rw [if_neg (by tauto)]
  · rw [if_neg hc]
    push_neg at hc
    rw [h, hc.1, hc.2]

theorem toTensorArr_rank2 (a : Arr) (hh ww : Nat) (h : a.dims = [hh, ww]) :
    ∃ b, toTensorArr a = Except.ok b ∧ b.dims = [1, hh, ww] := by
  unfold toTensorArr
  rw [h]
  exact ⟨_, rfl, rfl⟩

theorem toTensorArr_rank3 (a : Arr) (hh ww cc : Nat) (h : a.dims = [hh, ww, cc]) :
    ∃ b, toTensorArr a = Except.ok b ∧ b.dims = [cc, hh, ww] := by
  unfold toTensorArr
  rw [h]
  exact ⟨_, rfl, rfl⟩

/-- Claim C1 (amended): a synthetic descriptor with FOUR modality
paths and TWO disparity paths -- the right disparity map is read
unconditionally, so a single disparity path fails (see the
counterexample) -- with no noise, shift_filter = false,
vertical_scale = false, disparity_right = false and no ground-truth
color succeeds and returns exactly 6 elements: 4 modality rasters of
shape [c_i,540,720], one sparse-point array of shape [5000,3], and
one dense disparity raster of shape [1,540,720]; the loaded right
disparity map is excluded from the output because disparity_right is
unset, and the descriptor is returned unchanged. -/
theorem c1_six_outputs (e : EntityFlying3d) (fs : String → Arr) (perm : List Nat)
    (rng : Rng) (p1 p2 p3 p4 dL dR : String)
    (a1 b1 a2 b2 a3 b3 a4 b4 aL bL aR bR c1 c2 c3 c4 : Nat)
    (himg : e.images = [p1, p2, p3, p4]) (hdisp : e.disparity = [dL, dR])
    (hgn : e.guided_noise = none) (hga : e.gamma_noise = none)
    (hsf : e.shift_filter = false) (hvs : e.vertical_scale = false)
    (hdr : e.disparity_right = false) (hgt : e.rgb_gt = none)
    (h1 : (fs p1).dims = [a1, b1, c1]) (h2 : (fs p2).dims = [a2, b2, c2])
    (h3 : (fs p3).dims = [a3, b3, c3]) (h4 : (fs p4).dims = [a4, b4, c4])
    (hdL : (fs dL).dims = [aL, bL]) (hdR : (fs dR).dims = [aR, bR])
    (hperm : perm.length = 540 * 720) :
    ∃ batch s1,
      e.get_item fs perm rng = (Except.ok (batch, e), s1) ∧
      batch.length = 6 ∧
      batch.map Arr.dims = [[c1, 540, 720], [c2, 540, 720], [c3, 540, 720],
        [c4, 540, 720], [5000, 3], [1, 540, 720]] := by
  obtain ⟨t1, ht1, ht1d⟩ := toTensorArr_rank3 _ _ _ _ (readImg_dims fs p1 a1 b1 [c1] h1)
  obtain ⟨t2, ht2, ht2d⟩ := toTensorArr_rank3 _ _ _ _ (readImg_dims fs p2 a2 b2 [c2] h2)
  obtain ⟨t3, ht3, ht3d⟩ := toTensorArr_rank3 _ _ _ _ (readImg_dims fs p3 a3 b3 [c3] h3)
  obtain ⟨t4, ht4, ht4d⟩ := toTensorArr_rank3 _ _ _ _ (readImg_dims fs p4 a4 b4 [c4] h4)
  obtain ⟨tL, htL, htLd⟩ := toTensorArr_rank2 _ _ _ (readImg_dims fs dL aL bL [] hdL)
  obtain ⟨tR, htR, htRd⟩ := toTensorArr_rank2 _ _ _ (readImg_dims fs dR aR bR [] hdR)
  have htL2 : toTensorOf fs dL = Except.ok tL := htL
  have htR2 : toTensorOf fs dR = Except.ok tR := htR
  have ht1p : toTensorArr (readImg fs p1) = (pure t1 : Except String Arr) := ht1
  have ht2p : toTensorArr (readImg fs p2) = (pure t2 : Except String Arr) := ht2
  have ht3p : toTensorArr (readImg fs p3) = (pure t3 : Except String Arr) := ht3
  have ht4p : toTensorArr (readImg fs p4) = (pure t4 : Except String Arr) := ht4
  refine ⟨[t1, t2, t3, t4] ++ [pointsArr perm tL, tL], rng, ?_, ?_, ?_⟩
  · unfold EntityFlying3d.get_item
    rw [himg, hdisp]
    simp only [List.map_cons, List.map_nil]
    rw [guidedStage_none e hgn _ rng, bindS_ok]
    simp only [List.mapM_cons, List.mapM_nil, ht1p, ht2p, ht3p, ht4p, pure_bind]
    rw [bindS_pure, gammaStage_none e hga _ rng, bindS_ok]
    rw [show lidxS [dL, dR] 0 = Except.ok dL from rfl, bindS_ok, htL2, bindS_ok]
    rw [show lidxS [dL, dR] 1 = Except.ok dR from rfl, bindS_ok, htR2, bindS_ok]
    rw [rgbGtStage_none fs e hgt, bindS_ok]
    rw [shiftStage_false e hsf _ tL tR, bindS_ok]
    rw [verticalStage_false e hvs _ _ _ rng, bindS_ok]
    rw [hdr, if_neg (show ¬ ((false : Bool) = true) from by simp)]
  · simp
  · simp only [List.map_append, List.map_cons, List.map_nil, ht1d, ht2d, ht3d, ht4d, htLd]
    rw [show (pointsArr perm tL).dims = [(perm.take 5000).length, 3] from rfl]
    rw [List.length_take, hperm]
    norm_num

/-- The filesystem of the C1 runs: pfm paths decode to 540x720 float
maps, other paths to 540x720x3 color rasters. -/
def c1fs : String → Arr := fun p =>
  if strEndsWith p ".pfm" then ⟨[540, 720], fun _ => PixVal.fin 1⟩
  else ⟨[540, 720, 3], fun _ => PixVal.fin 100⟩

/-- Claim C1 counterexample: the descriptor the claim constructs (two
color paths, the SINGLE disparity path D.pfm, shift_filter and
vertical_scale off, disparity_right unset) does not succeed:
get_item reads the second disparity path (disparity[1])
unconditionally -- not only when disparity_right is set -- so with
one disparity path the access fails with IndexError. -/
theorem c1_counterexample :
    ((EntityFlying3d.mk_init ["L.png", "R.png"] ["D.pfm"] none none false false
        NoiseTarget.rgb false none []).1.get_item c1fs (List.range (540 * 720)) []).1
      = Except.error "IndexError" := by rfl

/-- The concrete descriptor of the C1 witness run: four modality
paths, two disparity paths, all augmentation off. -/
def c1e : EntityFlying3d :=
  (EntityFlying3d.mk_init ["L.png", "R.png", "NL.png", "NR.png"] ["D.pfm", "DR.pfm"]
    none none false false NoiseTarget.rgb false none []).1

theorem c1_six_outputs_witness :
    (c1e.images = ["L.png", "R.png", "NL.png", "NR.png"] ∧
      c1e.disparity = ["D.pfm", "DR.pfm"] ∧
      (c1fs "L.png").dims = [540, 720, 3] ∧ (c1fs "D.pfm").dims = [540, 720] ∧
      (List.range (540 * 720)).length = 540 * 720) ∧
    ∃ batch s1,
      c1e.get_item c1fs (List.range (540 * 720)) [] = (Except.ok (batch, c1e), s1) ∧
      batch.length = 6 ∧
      batch.map Arr.dims = [[3, 540, 720], [3, 540, 720], [3, 540, 720],
        [3, 540, 720], [5000, 3], [1, 540, 720]] :=
  ⟨⟨rfl, rfl, by decide, by decide, by simp⟩,
   c1_six_outputs c1e c1fs (List.range (540 * 720)) [] "L.png" "R.png" "NL.png" "NR.png"
     "D.pfm" "DR.pfm" 540 720 540 720 540 720 540 720 540 720 540 720 3 3 3 3
     rfl rfl rfl rfl rfl rfl rfl rfl (by decide) (by decide) (by decide) (by decide)
     (by decide) (by decide) (by simp)⟩
